import Mathlib

/-!
Verification development for the hpc-cache NFSv3 client protocol stack.

This file gives a shallow embedding, in Lean 4, of the pieces of the
Python sources relevant to the properties under study:

* `rpc_rfc1057.py` — XDR stream primitives (`read_exact`, `read_then_align`,
  `read_list`, `discard_auth`), the `annotated_enum` equality discipline,
  the per-class `_lastxid` counters behind the classmethods
  `get_new_xid` / `xid_used`, the
  `need_reconnect` flag discipline of `_RawTCPClient._recvwrapper`,
  `_sendrecord` and `make_call`, and the reply dispatch of
  `_make_call_internal`.
* `nfs3.py` — the decoders `fattr3.read`, `post_op_attr.read`,
  `READ3res.read`.
* `nfs3_util.py` — `NFS3_Client.make_call` (JUKEBOX retry loop),
  `readdir_entire_dir`, `readdirplus_entire_dir`,
  `MOUNT3_Client.get_rootfh_using_mnt`, `resolve_path_from`,
  `resolve_path`.

Streams are byte lists (`Bytes`); reading is functional state passing
returning `Except` for Python exceptions.  Server interactions (the RPC
replies seen by the convenience wrappers) are modelled as oracles:
functions supplying the reply for each call, so that theorems quantify
over all possible server behaviours.
-/

set_option maxHeartbeats 1000000

deriving instance DecidableEq for Except

/-- Byte streams: a list of byte values (each intended `< 256`). -/
abbrev Bytes := List Nat

/-- Python exceptions that the XDR stream readers can raise:
`ShortRead(expected, got)` (a `ProtocolError` subclass), a generic
`ProtocolError(msg)`, and `struct.error` from `struct.unpack` on a
too-short buffer. -/
inductive PErr : Type where
  | shortRead (expected got : Nat)
  | protocolError (msg : String)
  | structError
deriving DecidableEq, Repr

/-- Mirror of `ONCRPCwire.read_exact(stream, count)`: read `count` bytes,
raising `ShortRead` when the stream has fewer.  Returns the bytes read and
the rest of the stream. -/
def read_exact (s : Bytes) (count : Nat) : Except PErr (Bytes × Bytes) :=
  let ret := s.take count
  if ret.length ≠ count then .error (.shortRead count ret.length)
  else .ok (ret, s.drop count)

/-- Mirror of `ONCRPCwire.read_then_align(stream, count, align)`: read
`count` bytes, then read and discard enough bytes to round `count` up to a
multiple of `align`. -/
def read_then_align (s : Bytes) (count align : Nat) : Except PErr (Bytes × Bytes) := do
  let (ret, s1) ← read_exact s count
  let extra := count % align
  if extra ≠ 0 then
    let (_, s2) ← read_exact s1 (align - extra)
    pure (ret, s2)
  else
    pure (ret, s1)

/-- Big-endian value of a byte sequence (how `struct.unpack('!I', ...)`
and friends combine bytes). -/
def beNat (bs : Bytes) : Nat :=
  bs.foldl (fun a b => a * 256 + b) 0

/-- Two's-complement reinterpretation of a 32-bit unsigned value as a
signed one, as `struct.unpack('!i', ...)` produces. -/
def toSigned32 (n : Nat) : Int :=
  if n < 2147483648 then (n : Int) else (n : Int) - 4294967296

/-- Mirror of `ONCRPCwire.read_uint32`. -/
def read_uint32 (s : Bytes) : Except PErr (Nat × Bytes) := do
  let (bs, s1) ← read_exact s 4
  pure (beNat bs, s1)

/-- Mirror of `ONCRPCwire.read_int32` (and of `read_enum`, which is the
same signed 32-bit read). -/
def read_int32 (s : Bytes) : Except PErr (Int × Bytes) := do
  let (bs, s1) ← read_exact s 4
  pure (toSigned32 (beNat bs), s1)

/-- Mirror of `ONCRPCwire.read_bool`: a signed 32-bit word, nonzero means
true. -/
def read_bool (s : Bytes) : Except PErr (Bool × Bytes) := do
  let (v, s1) ← read_int32 s
  pure (v ≠ 0, s1)

/-- Mirror of `ONCRPCwire.read_uint64`. -/
def read_uint64 (s : Bytes) : Except PErr (Nat × Bytes) := do
  let (bs, s1) ← read_exact s 8
  pure (beNat bs, s1)

/-- Big-endian 4-byte encoding of an unsigned 32-bit value (what
`struct.pack('!I', n)` emits for `n < 2^32`). -/
def u32b (n : Nat) : Bytes :=
  [n / 16777216 % 256, n / 65536 % 256, n / 256 % 256, n % 256]

/-- Big-endian 4-byte encoding of a signed 32-bit value
(`struct.pack('!i', v)`). -/
def i32b (v : Int) : Bytes :=
  u32b (v % 4294967296).toNat

/-- Mirror of `ONCRPCwire.read_list(stream, read_item)`: a sequence of
`(marker, item)` pairs where marker `1` announces an item and marker `0`
terminates; any other marker raises `ProtocolError`.  The Python loop is
unbounded, so the embedding takes fuel; `none` means the fuel ran out
before the loop terminated, and never occurs for a stream on which the
Python loop terminates, given fuel of at least one more than the number of
items. -/
def read_list {α : Type} (read_item : Bytes → Except PErr (α × Bytes)) :
    Nat → Bytes → Option (Except PErr (List α × Bytes))
  | 0, _ => none
  | fuel + 1, s =>
    match read_uint32 s with
    | .error e => some (.error e)
    | .ok (nextval, s1) =>
      if nextval = 0 then some (.ok ([], s1))
      else if nextval ≠ 1 then
        some (.error (.protocolError ("unexpected nextval=" ++ toString nextval)))
      else
        match read_item s1 with
        | .error e => some (.error e)
        | .ok (item, s2) =>
          match read_list read_item fuel s2 with
          | none => none
          | some (.error e) => some (.error e)
          | some (.ok (rest, s3)) => some (.ok (item :: rest, s3))

/-- Wire encoding of a list in the sense of `read_list`: each item is
preceded by a marker word `1`, and a marker word `0` terminates the
sequence. -/
def enc_list {α : Type} (enc_item : α → Bytes) (items : List α) : Bytes :=
  (items.flatMap (fun it => u32b 1 ++ enc_item it)) ++ u32b 0

/-- Mirror of `ONCRPCwire.discard_auth(stream)`: read the 8-byte
`(flavor, stuff_len)` header, then seek forward `stuff_len` bytes
(an `io.BytesIO` seek past the end is permitted and later reads simply
come up short, which `List.drop` models exactly). -/
def discard_auth (s : Bytes) : Except PErr Bytes := do
  let (hdr, s1) ← read_exact s 8
  pure (s1.drop (beNat (hdr.drop 4)))

/-!
Annotated enums (`rpc_rfc1057.annotated_enum`).

An enum instance is a class tag plus a 32-bit integer value.  The class
tag carries the two class-level comparison-configuration flags; the base
class defaults are `_MISMATCH_CMP_ALLOW = False` and
`_MISMATCH_CMP_EXCEPT = False`, and no subclass in the sources overrides
`_MISMATCH_CMP_EXCEPT`.
-/

/-- Class-level data of an `annotated_enum` subclass that matters for
`__eq__`: the class identity (Python `type(self)`, distinguished here by
name) and the mismatch-comparison configuration flags. -/
structure enum_class where
  name : String
  mismatch_cmp_allow : Bool
  mismatch_cmp_except : Bool
deriving DecidableEq, Repr

/-- An `annotated_enum` instance: its class and its integer value. -/
structure enum_val where
  cls : enum_class
  val : Int
deriving DecidableEq, Repr

/-- Outcome of evaluating a Python `==`: either a boolean result or a
raised `TypeError`. -/
inductive cmp_result : Type where
  | ret (b : Bool)
  | typeErrorRaised
deriving DecidableEq, Repr

/-- Mirror of `annotated_enum.__eq__(self, other)` for the case where
`other` is also an `annotated_enum` instance: on a class mismatch, return
`False` when `_MISMATCH_CMP_ALLOW`, raise `TypeError` when
`_MISMATCH_CMP_EXCEPT` (after logging a warning), and otherwise fall
through to the integer-value comparison `int(self) == int(other)`. -/
def annotated_enum_eq (a b : enum_val) : cmp_result :=
  if a.cls ≠ b.cls then
    if a.cls.mismatch_cmp_allow then .ret false
    else if a.cls.mismatch_cmp_except then .typeErrorRaised
    else .ret (decide (a.val = b.val))
  else .ret (decide (a.val = b.val))

/-- `nfs3.ftype3`: inherits both mismatch flags (`False`). -/
def ftype3_class : enum_class := ⟨"ftype3", false, false⟩

/-- `nfs3.stable_how`: inherits both mismatch flags (`False`). -/
def stable_how_class : enum_class := ⟨"stable_how", false, false⟩

/-- `nfs3.createmode3`: inherits both mismatch flags (`False`). -/
def createmode3_class : enum_class := ⟨"createmode3", false, false⟩

/-- `nfs3.time_how`: inherits both mismatch flags (`False`). -/
def time_how_class : enum_class := ⟨"time_how", false, false⟩

/-- `rpc_rfc1057.msg_type`: inherits both mismatch flags (`False`). -/
def msg_type_class : enum_class := ⟨"msg_type", false, false⟩

/-- `nfs3.nfsstat3`: sets `_MISMATCH_CMP_ALLOW = True`. -/
def nfsstat3_class : enum_class := ⟨"nfsstat3", true, false⟩

/-!
The XID counter (`_RawTCPClient._lastxid`, classmethods `get_new_xid`
and `xid_used`).

The class body of `_RawTCPClient` sets `_lastxid = 0` once.  Both
operations are `@classmethod`s and every call site invokes them through
`self` (`self.get_new_xid()`, `self.xid_used(xid)`), so `cls` is the
most-derived client class of the instance.  The augmented assignments
`cls._lastxid += 1` and `cls._lastxid = max(cls._lastxid, xid)` *read*
the attribute through the method-resolution order (falling back to
`_RawTCPClient._lastxid = 0`) but *write* the result into `cls`'s own
class dict, shadowing the base attribute.  The state is therefore a
store mapping each class name to its own shadowed `_lastxid` (absent
until that class's first write); a read walks the invoking class's MRO.
-/

/-- A Python class, identified by name. -/
abbrev ClsName := String

/-- The shadowed `_lastxid` class attributes: which classes have their
own `_lastxid` in their class dict, and its value there. -/
abbrev LastxidStore := ClsName → Option Int

/-- The class-attribute store at process start: only the class body of
`_RawTCPClient` has set `_lastxid`, to `0` ("incremented before first
use, so the first one we use is 1"). -/
def lastxid_store0 : LastxidStore :=
  fun c => if c = "_RawTCPClient" then some 0 else none

/-- Reading `cls._lastxid`: walk the MRO and return the first class's
own value.  (The walk always succeeds in the program, since every client
MRO ends at `_RawTCPClient`, which `lastxid_store0` populates; the `0`
for an exhausted list is unreachable.) -/
def cls_lastxid_get (store : LastxidStore) : List ClsName → Int
  | [] => 0
  | c :: rest =>
    match store c with
    | some v => v
    | none => cls_lastxid_get store rest

/-- Writing `cls._lastxid = v`: the value lands in the invoking class's
own dict, shadowing any ancestor's attribute. -/
def store_set (store : LastxidStore) (c : ClsName) (v : Int) : LastxidStore :=
  fun c2 => if c2 = c then some v else store c2

/-- Mirror of the classmethod `_RawTCPClient.get_new_xid()` invoked with
`cls` whose MRO is `cls :: mro_tail`: `cls._lastxid += 1` reads through
the MRO, adds one, writes into `cls`, and returns the new value. -/
def get_new_xid (store : LastxidStore) (cls : ClsName) (mro_tail : List ClsName) :
    LastxidStore × Int :=
  let v := cls_lastxid_get store (cls :: mro_tail) + 1
  (store_set store cls v, v)

/-- Mirror of the classmethod `_RawTCPClient.xid_used(xid)` invoked with
`cls` whose MRO is `cls :: mro_tail`:
`cls._lastxid = max(cls._lastxid, xid)` reads through the MRO and writes
into `cls`. -/
def xid_used (store : LastxidStore) (cls : ClsName) (mro_tail : List ClsName)
    (xid : Int) : LastxidStore :=
  store_set store cls (max (cls_lastxid_get store (cls :: mro_tail)) xid)

/-- One XID-counter operation, tagged with the invoking class and the
tail of its MRO (the call sites always invoke through `self`, so the
class is the instance's most-derived class). -/
inductive xid_op : Type where
  | get_new (cls : ClsName) (mro_tail : List ClsName)
  | used (cls : ClsName) (mro_tail : List ClsName) (x : Int)

/-- Run a history of XID-counter operations from a store, collecting the
values returned by the `get_new_xid` calls in order. -/
def xid_run : List xid_op → LastxidStore → LastxidStore × List Int
  | [], store => (store, [])
  | .get_new c m :: ops, store =>
    let r := get_new_xid store c m
    let rest := xid_run ops r.1
    (rest.1, r.2 :: rest.2)
  | .used c m x :: ops, store => xid_run ops (xid_used store c m x)

/-- MRO tail shared by the `nfs3.MOUNT3_Client` and `nfs3.NFS3_Client`
client classes: both derive from `TCPClient`, which derives from
`_RawTCPClient`. -/
def rpc_client_mro_tail : List ClsName := ["TCPClient", "_RawTCPClient"]

/-!
The `need_reconnect` flag across one RPC attempt
(`_RawTCPClient._recvwrapper`, `_sendrecord`, and the per-attempt
exception handling in `_RawTCPClient.make_call`).
-/

/-- Exceptions relevant to the per-attempt handler of
`_RawTCPClient.make_call`. -/
inductive RpcExc : Type where
  | rpcTimeout
  | connectionReset
  | eofError
  | protocolExc
  | runtimeError
deriving DecidableEq, Repr

/-- What happens at the socket during one `_recvwrapper` (or the send in
`_sendrecord`): the per-attempt deadline may already be past before
touching the socket, the socket operation may raise `socket.timeout` or
another exception, or it completes with data. -/
inductive SockEvent : Type where
  | deadlinePassed
  | sockTimeout
  | sockErr (e : RpcExc)
  | opOk (buf : Bytes)
deriving DecidableEq, Repr

/-- Mirror of `_RawTCPClient._recvwrapper(bufsize, timeoutAbs)` restricted
to its effect on `self.need_reconnect` and its outcome: when the deadline
is already past it raises `RPCTimeout` without touching the flag; on
`socket.timeout` it sets `need_reconnect = True` and raises `RPCTimeout`;
on any other socket exception it sets `need_reconnect = True` and
re-raises; otherwise it returns the buffer. -/
def recvwrapper (need_reconnect : Bool) (ev : SockEvent) :
    Bool × Except RpcExc Bytes :=
  match ev with
  | .deadlinePassed => (need_reconnect, .error .rpcTimeout)
  | .sockTimeout => (true, .error .rpcTimeout)
  | .sockErr e => (true, .error e)
  | .opOk buf => (need_reconnect, .ok buf)

/-- Mirror of `_RawTCPClient._sendrecord` restricted to its effect on
`self.need_reconnect`: identical discipline to `_recvwrapper` (deadline
pre-check leaves the flag, `socket.timeout` and other send errors set
it). -/
def sendrecord_flag (need_reconnect : Bool) (ev : SockEvent) :
    Bool × Option RpcExc :=
  match ev with
  | .deadlinePassed => (need_reconnect, some .rpcTimeout)
  | .sockTimeout => (true, some .rpcTimeout)
  | .sockErr e => (true, some e)
  | .opOk _ => (need_reconnect, none)

/-- Effect on `need_reconnect` of the per-attempt `except` clauses in
`_RawTCPClient.make_call`: every handled exception sets the flag except
`RPCTimeout` ("Do not reconnect on timeout so we can get xid
matching."). -/
def make_call_handler_flag (need_reconnect : Bool) (e : RpcExc) : Bool :=
  match e with
  | .rpcTimeout => need_reconnect
  | _ => true

/-- The value of `need_reconnect` after one `make_call` attempt whose
receive path produced socket event `ev`: the flag as left by
`_recvwrapper`, further adjusted by `make_call`'s exception handler when
an exception escaped. -/
def attempt_flag_after_recv (need_reconnect : Bool) (ev : SockEvent) : Bool :=
  match recvwrapper need_reconnect ev with
  | (flag, .ok _) => flag
  | (flag, .error e) => make_call_handler_flag flag e

/-!
Reply dispatch of `_RawTCPClient._make_call_internal` (the portion from
reading the 12-byte `(xid, mtype, reply_stat)` header to producing a
result), parameterised by the `res_class.read` decoder.
-/

/-- The `status` field of an `ONCRPCresfail` produced by reply dispatch:
either a diagnostic string or one of the wrapped enum instances
`accept_stat(v)`, `reject_stat(v)`, `Auth_stat(v)`. -/
inductive RpcFailStatus : Type where
  | strSt (s : String)
  | acceptSt (v : Int)
  | rejectSt (v : Int)
  | authSt (v : Int)
deriving DecidableEq, Repr

/-- Result of `_make_call_internal` reply dispatch: a decoded body with
its xid, or an `ONCRPCresfail` with an xid and a status. -/
inductive DispatchOut (α : Type) : Type where
  | success (body : α) (xid : Nat)
  | resfail (xid : Nat) (status : RpcFailStatus)
deriving DecidableEq, Repr

/-- Mirror of the reply-processing tail of
`_RawTCPClient._make_call_internal`: unpack `(xid, mtype, stat)` from the
first 12 bytes (`struct.error` if short); reject non-`REPLY` mtypes and
mismatched xids with `need_reconnect` set; on `MSG_ACCEPTED(0)` discard
the verifier, read the accept-stat, and either decode the body with
`res_read` or fail with the accept-stat; on `MSG_DENIED(1)` read the
reject-stat, and on `RPC_MISMATCH(0)` skip 8 bytes and fail with the
reject-stat, on `AUTH_ERROR(1)` read the auth-stat word `astat` and fail
with `Auth_stat(dstat)` exactly as the source does (the source constructs
`Auth_stat` from `dstat`, not from the `astat` it just read).  Returns the
dispatch outcome paired with the `need_reconnect` flag. -/
def make_call_internal_reply {α : Type} (res_read : Bytes → Except PErr (α × Bytes))
    (expect_xid : Nat) (reply : Bytes) (need_reconnect : Bool) :
    Except PErr (DispatchOut α) × Bool :=
  let hdr := reply.take 12
  if hdr.length < 12 then (.error .structError, need_reconnect)
  else
    let xid := beNat (hdr.take 4)
    let mtype := toSigned32 (beNat ((hdr.drop 4).take 4))
    let stat := toSigned32 (beNat (hdr.drop 8))
    let s := reply.drop 12
    if mtype ≠ 1 then
      (.ok (.resfail xid (.strSt ("mtype " ++ toString mtype ++ " is not REPLY"))), true)
    else if xid ≠ expect_xid then
      (.ok (.resfail expect_xid (.strSt "wrong xid in reply")), true)
    else if stat = 0 then
      match discard_auth s with
      | .error e => (.error e, need_reconnect)
      | .ok s1 =>
        match read_int32 s1 with
        | .error e => (.error e, need_reconnect)
        | .ok (astat, s2) =>
          if astat ≠ 0 then (.ok (.resfail xid (.acceptSt astat)), need_reconnect)
          else
            match res_read s2 with
            | .error e => (.error e, need_reconnect)
            | .ok (body, _) => (.ok (.success body xid), need_reconnect)
    else if stat = 1 then
      match read_int32 s with
      | .error e => (.error e, need_reconnect)
      | .ok (dstat, s1) =>
        if dstat = 0 then
          (.ok (.resfail xid (.rejectSt dstat)), need_reconnect)
        else if dstat = 1 then
          match read_uint32 s1 with
          | .error e => (.error e, need_reconnect)
          | .ok (_, _) => (.ok (.resfail xid (.authSt dstat)), need_reconnect)
        else
          (.ok (.resfail xid (.strSt "MSG_DENIED with unexpected dstatus in reply")), need_reconnect)
    else
      (.ok (.resfail xid (.strSt "unexpected status in reply")), true)

/-!
NFSv3 decoders from `nfs3.py`: `fattr3.read`, `post_op_attr.read`,
`READ3res.read`, and the generic `vararray.read`.
-/

/-- `nfs3.specdata3`: two unsigned 32-bit words. -/
structure specdata3 where
  specdata1 : Nat
  specdata2 : Nat
deriving DecidableEq, Repr

/-- `nfs3.nfstime3`: `(seconds, nseconds)`, both unsigned 32-bit. -/
structure nfstime3 where
  seconds : Nat
  nseconds : Nat
deriving DecidableEq, Repr

/-- `nfs3.fattr3`: the fixed-layout file-attribute record. -/
structure fattr3 where
  ftype : Int
  mode : Nat
  nlink : Nat
  uid : Nat
  gid : Nat
  size : Nat
  used : Nat
  rdev : specdata3
  fsid : Nat
  fileid : Nat
  atime : nfstime3
  mtime : nfstime3
  ctime : nfstime3
deriving DecidableEq, Repr

/-- Mirror of `fattr3.read(stream)`: one `read_exact` of
`struct.calcsize('!iIIIIQQIIQQIIIIII') = 84` bytes, unpacked
field-by-field at the offsets the format string dictates. -/
def fattr3.read (s : Bytes) : Except PErr (fattr3 × Bytes) := do
  let (buf, s1) ← read_exact s 84
  pure (⟨toSigned32 (beNat (buf.take 4)),
         beNat ((buf.drop 4).take 4),
         beNat ((buf.drop 8).take 4),
         beNat ((buf.drop 12).take 4),
         beNat ((buf.drop 16).take 4),
         beNat ((buf.drop 20).take 8),
         beNat ((buf.drop 28).take 8),
         ⟨beNat ((buf.drop 36).take 4), beNat ((buf.drop 40).take 4)⟩,
         beNat ((buf.drop 44).take 8),
         beNat ((buf.drop 52).take 8),
         ⟨beNat ((buf.drop 60).take 4), beNat ((buf.drop 64).take 4)⟩,
         ⟨beNat ((buf.drop 68).take 4), beNat ((buf.drop 72).take 4)⟩,
         ⟨beNat ((buf.drop 76).take 4), beNat ((buf.drop 80).take 4)⟩⟩, s1)

/-- `nfs3.post_op_attr`: `(attributes_follow, attributes)` where the
attributes are present only when the bool said so. -/
structure post_op_attr where
  attributes_follow : Bool
  attributes : Option fattr3
deriving DecidableEq, Repr

/-- Mirror of `_op_attr_base.read` specialised to `post_op_attr`
(`_ATTRIBUTE_CLASS = fattr3`): read the bool, then the attributes when it
is true. -/
def post_op_attr.read (s : Bytes) : Except PErr (post_op_attr × Bytes) := do
  let (attributes_follow, s1) ← read_bool s
  if attributes_follow then
    let (attrs, s2) ← fattr3.read s1
    pure (⟨attributes_follow, some attrs⟩, s2)
  else
    pure (⟨attributes_follow, none⟩, s1)

/-- Mirror of `vararray.read(stream)` (the decoder of every
variable-length opaque/string type such as `filename3`, `nfspath3`,
`nfs_fh3`): a uint32 length, then `read_then_align(stream, count, 4)`. -/
def vararray.read (s : Bytes) : Except PErr (Bytes × Bytes) := do
  let (count, s1) ← read_uint32 s
  read_then_align s1 count 4

/-- `nfs3.READ3res`: the decoded READ reply.  The OK-arm fields are
`none` when the status was not `NFS3_OK`. -/
structure READ3res where
  status : Int
  file_attributes : Option post_op_attr
  count : Option Nat
  eof : Option Bool
  data : Option Bytes
deriving DecidableEq, Repr

/-- Mirror of `READ3res.read(stream)`: read the `nfsstat3` status word
(`generate_from_status`); on `NFS3_OK` read the `post_op_attr`, then
`struct.unpack('!IiI', read_exact(stream, 12))` giving
`(count, eof, oc)`, then `read_exact(stream, oc)` for the opaque data —
exactly `oc` bytes, with no alignment step; on any other status read only
the `post_op_attr` fail arm. -/
def READ3res.read (s : Bytes) : Except PErr (READ3res × Bytes) := do
  let (status, s1) ← read_int32 s
  if status = 0 then
    let (fa, s2) ← post_op_attr.read s1
    let (buf, s3) ← read_exact s2 12
    let count := beNat (buf.take 4)
    let eof_val := toSigned32 (beNat ((buf.drop 4).take 4))
    let oc := beNat (buf.drop 8)
    let (data_val, s4) ← read_exact s3 oc
    pure (⟨status, some fa, some count, some (eof_val ≠ 0), some data_val⟩, s4)
  else
    let (fa, s2) ← post_op_attr.read s1
    pure (⟨status, some fa, none, none, none⟩, s2)

/-!
`nfs3_util.NFS3_Client.make_call`: the JUKEBOX retry loop.

Each underlying `nfs3.NFS3_Client.make_call` attempt (issued with
`callTries=1` and an explicit xid) is abstracted by the status of the
result it produces; `attempts i` is the status returned by the `i`-th
attempt.  The client's XID counter (all allocations here go through the
same most-derived class, so one counter is involved) is threaded as a
natural number `ctr`, with an allocation modelled as `ctr + 1` (the
counter only grows by increments here).
-/

/-- The `status` field of an RPC result as the retry loop sees it: an
`nfsstat3` instance (its integer value), a plain string (RPC-level
failures such as `"RPCTimeout"`), or Python `None`. -/
inductive RStatus : Type where
  | nfsstat (v : Int)
  | strStatus (s : String)
  | noneStatus
deriving DecidableEq, Repr

/-- Mirror of the post-loop mapping in `nfs3_util.NFS3_Client.make_call`:
a `None` status on the returned result is replaced by the string
`"Unexpected_NoneStatus"`; everything else is returned untouched. -/
def map_none_status : RStatus → RStatus
  | .noneStatus => .strStatus "Unexpected_NoneStatus"
  | s => s

/-- Observable outcome of `nfs3_util.NFS3_Client.make_call`: the status
of the returned result, the xid passed to each underlying attempt in
order, and the XID counter after the call. -/
structure MCOut where
  status : RStatus
  xids : List Nat
  ctr : Nat
deriving DecidableEq, Repr

/-- The retry loop body of `nfs3_util.NFS3_Client.make_call`.  `idx` is
the index of the attempt about to run, `fuel` the number of further
attempts permitted after it (`callTries - try_count`), `cur_xid` the xid
for this attempt, `ctr` the XID counter, `acc` the xids used so far.  An
`nfsstat3` status other than JUKEBOX returns at once; JUKEBOX returns at
once when the caller supplied the xid and otherwise allocates a fresh
xid (`next_xid = self.get_new_xid()`) before the retry check; any
non-`nfsstat3` status falls through to retry with the same xid.  When no
tries remain the result of the last attempt is returned, with a `None`
status mapped by `map_none_status`. -/
def make_call_go (attempts : Nat → RStatus) (in_xid : Option Nat) :
    Nat → Nat → Nat → Nat → List Nat → MCOut
  | idx, fuel, cur_xid, ctr, acc =>
    let res := attempts idx
    let acc1 := acc ++ [cur_xid]
    match res with
    | .nfsstat v =>
      if v = 10008 then
        match in_xid with
        | some _ => ⟨res, acc1, ctr⟩
        | none =>
          match fuel with
          | 0 => ⟨map_none_status res, acc1, ctr + 1⟩
          | fuel1 + 1 => make_call_go attempts in_xid (idx + 1) fuel1 (ctr + 1) (ctr + 1) acc1
      else ⟨res, acc1, ctr⟩
    | _ =>
      match fuel with
      | 0 => ⟨map_none_status res, acc1, ctr⟩
      | fuel1 + 1 => make_call_go attempts in_xid (idx + 1) fuel1 cur_xid ctr acc1

/-- Python exceptions raised by `nfs3_util.NFS3_Client.make_call` before
the loop starts. -/
inductive PyCallErr : Type where
  | valueError (msg : String)
  | typeError (msg : String)
deriving DecidableEq, Repr

/-- Mirror of `nfs3_util.NFS3_Client.make_call`: reject `callTries < 1`
with `ValueError`; take `cur_xid` from the caller or from
`get_new_xid()`; then run the retry loop. -/
def NFS3_Client.make_call (attempts : Nat → RStatus) (in_xid : Option Nat)
    (callTries : Nat) (ctr0 : Nat) : Except PyCallErr MCOut :=
  if callTries < 1 then .error (.valueError "illegal callTries")
  else
    match in_xid with
    | some x => .ok (make_call_go attempts in_xid 0 (callTries - 1) x ctr0 [])
    | none => .ok (make_call_go attempts in_xid 0 (callTries - 1) (ctr0 + 1) (ctr0 + 1) [])

/-!
`nfs3_util.NFS3_Client.readdir_entire_dir` and
`readdirplus_entire_dir`.

The replies the server produces are an oracle indexed by the call number
together with the `(cookie, cookieverf)` the client sent.  Python
exceptions raised by the loop body are represented explicitly.
-/

/-- `nfs3.entry3`: `(fileid, name, cookie)`. -/
structure entry3 where
  fileid : Nat
  name : String
  cookie : Nat
deriving DecidableEq, Repr

/-- `nfs3.entryplus3`: `entry3` plus the optional handle of the entry. -/
structure entryplus3 where
  fileid : Nat
  name : String
  cookie : Nat
  name_handle : Option Bytes
deriving DecidableEq, Repr

/-- A decoded `READDIR3res`/`READDIRPLUS3res` reply as the directory
walkers use it: status, the cookie verifier, and the `(entries, eof)`
listing. -/
structure readdir_res (ε : Type) where
  status : Int
  cookieverf : Bytes
  entries : List ε
  eof : Bool
deriving DecidableEq, Repr

/-- Python exceptions observable from the directory walkers. -/
inductive PyExc : Type where
  | unboundLocalError (varname : String)
  | indexError
deriving DecidableEq, Repr

/-- A Python call outcome: a returned value or a raised exception. -/
inductive PyOutcome (α : Type) : Type where
  | ok (v : α)
  | exc (e : PyExc)
deriving DecidableEq, Repr

/-- The initial cookie verifier `nfs3.cookieverf3(None)`: eight zero
bytes (`fixedarray` default, `_FIXEDSIZE = NFS3_COOKIEVERFSIZE = 8`). -/
def cookieverf3_zero : Bytes := List.replicate 8 0

/-- Loop body of `NFS3_Client.readdir_entire_dir(dirfh)`.  On a non-OK
status the source executes `logger = LoggerState.logger_get(logger=logger)`,
but the method has no `logger` parameter and no prior assignment, so the
local `logger` is read before assignment and `UnboundLocalError` is
raised.  On OK: accumulate the entries, stop with `(True, entries)` at
`eof`, otherwise continue from `entry_list[len(entry_list)-1].cookie`
(an `IndexError` when the entry list is empty) and the returned
cookieverf.  Fuel bounds the unbounded `while True`; `none` means the
fuel ran out. -/
def readdir_entire_dir_go (responses : Nat → Nat → Bytes → readdir_res entry3) :
    Nat → Nat → Nat → Bytes → List entry3 → Option (PyOutcome (Bool × List entry3))
  | 0, _, _, _, _ => none
  | fuel + 1, i, cookie, cookieverf, entries =>
    let rd_res := responses i cookie cookieverf
    if rd_res.status ≠ 0 then
      some (.exc (.unboundLocalError "logger"))
    else
      let entry_list := rd_res.entries
      let entries1 := entries ++ entry_list
      if rd_res.eof then some (.ok (true, entries1))
      else
        match entry_list.getLast? with
        | none => some (.exc .indexError)
        | some last_entry =>
          readdir_entire_dir_go responses fuel (i + 1) last_entry.cookie rd_res.cookieverf entries1

/-- Mirror of `NFS3_Client.readdir_entire_dir(dirfh)`: start at
`cookie = 0`, `cookieverf = cookieverf3(None)`, empty accumulator. -/
def readdir_entire_dir (responses : Nat → Nat → Bytes → readdir_res entry3)
    (fuel : Nat) : Option (PyOutcome (Bool × List entry3)) :=
  readdir_entire_dir_go responses fuel 0 0 cookieverf3_zero []

/-- Loop body of `NFS3_Client.readdirplus_entire_dir(dirfh, logger=None)`.
Identical to the `readdir` walker except that this method does have a
`logger` parameter, so its non-OK branch logs and returns
`(False, [])`. -/
def readdirplus_entire_dir_go (responses : Nat → Nat → Bytes → readdir_res entryplus3) :
    Nat → Nat → Nat → Bytes → List entryplus3 → Option (PyOutcome (Bool × List entryplus3))
  | 0, _, _, _, _ => none
  | fuel + 1, i, cookie, cookieverf, entries =>
    let rdp_res := responses i cookie cookieverf
    if rdp_res.status ≠ 0 then
      some (.ok (false, []))
    else
      let entry_list := rdp_res.entries
      let entries1 := entries ++ entry_list
      if rdp_res.eof then some (.ok (true, entries1))
      else
        match entry_list.getLast? with
        | none => some (.exc .indexError)
        | some last_entry =>
          readdirplus_entire_dir_go responses fuel (i + 1) last_entry.cookie rdp_res.cookieverf entries1

/-- Mirror of `NFS3_Client.readdirplus_entire_dir(dirfh)`. -/
def readdirplus_entire_dir (responses : Nat → Nat → Bytes → readdir_res entryplus3)
    (fuel : Nat) : Option (PyOutcome (Bool × List entryplus3)) :=
  readdirplus_entire_dir_go responses fuel 0 0 cookieverf3_zero []

/-!
Path resolution (`nfs3_util.resolve_path`, `resolve_path_from`,
`MOUNT3_Client.get_rootfh_using_mnt`).

File handles are their byte contents.  The MOUNT reply and the LOOKUP
replies the servers produce are oracles; a LOOKUP reply is abstracted by
its status and the byte contents of the OK-arm handle `aobject`.
-/

/-- A `MOUNT3_MNTres` as `get_rootfh_using_mnt` consumes it: the
`mountstat3` status value and the `fhandle3` bytes of the OK arm. -/
structure MOUNT3_MNTres where
  status : Int
  fhandle : Bytes
deriving DecidableEq, Repr

/-- Mirror of `MOUNT3_Client.get_rootfh_using_mnt(mnt)` applied to the
reply of `rpc_mnt(MOUNT3_MNTargs(adirpath="/"))`: `None` on a status
other than `MNT3_OK`, else the root `fhandle3`. -/
def get_rootfh_using_mnt (res : MOUNT3_MNTres) : Option Bytes :=
  if res.status ≠ 0 then none else some res.fhandle

/-- A `LOOKUP3res` as the resolver consumes it: the `nfsstat3` status
value and the bytes of the OK-arm handle `aobject`. -/
structure LOOKUP3res where
  status : Int
  aobject : Bytes
deriving DecidableEq, Repr

/-- Mirror of `LOOKUP3res.get_handle()`, i.e. `nfs_fh3.get_handle()` on
`aobject`: `self if self._buf else None`, so an empty handle becomes
`None`. -/
def LOOKUP3res.get_handle (r : LOOKUP3res) : Option Bytes :=
  if r.aobject = [] then none else some r.aobject

/-- Python strings, as character lists (so that the split and indexing
operations below compute transparently). -/
abbrev PyStr := List Char

/-- Python's `s.split(sep)` for a one-character separator, as used by
`path_remain.split(os.path.sep)`: splitting the empty string yields
`[""]`, and adjacent separators yield empty components. -/
def py_split (sep : Char) : PyStr → List PyStr
  | [] => [[]]
  | c :: rest =>
    if c = sep then [] :: py_split sep rest
    else
      match py_split sep rest with
      | [] => [[c]]
      | h :: t => (c :: h) :: t

/-- Python exceptions raised by `resolve_path_from`. -/
inductive ResolveErr : Type where
  | valueError (msg : String)
  | runtimeError (msg : String)
deriving DecidableEq, Repr

/-- The component loop of `resolve_path_from`: for each component, an
empty component raises `ValueError("invalid path")`; otherwise issue
`LOOKUP3args(adir=fh, aname=comp)` (a `None` handle becomes the empty
`nfs_fh3`), raise `RuntimeError("cannot resolve path")` on a non-OK
status, and continue from `lookup_res.get_handle()`. -/
def resolve_path_loop (cli_lookup : Bytes → PyStr → LOOKUP3res) :
    List PyStr → Option Bytes → Except ResolveErr (Option Bytes)
  | [], fh => .ok fh
  | comp :: comps, fh =>
    if comp = [] then .error (.valueError "invalid path")
    else
      let lookup_res := cli_lookup (fh.getD []) comp
      if lookup_res.status ≠ 0 then .error (.runtimeError "cannot resolve path")
      else resolve_path_loop cli_lookup comps lookup_res.get_handle

/-- Mirror of `nfs3_util.resolve_path_from(mnt, cli, fh, path)`.  An
empty path raises `ValueError`.  With no starting handle the path must be
absolute (`path.startswith(os.path.sep)` with separator `/`): mount "/"
for the root handle (raising `RuntimeError` when the mount fails), return
it directly (rewrapped as `nfs_fh3(data=fh)`, the same bytes) when the
path is exactly "/", and otherwise walk `path[1:].split("/")`.  With a
starting handle the path must be relative and `path.split("/")` is walked
from it. -/
def resolve_path_from (mnt : MOUNT3_MNTres) (cli_lookup : Bytes → PyStr → LOOKUP3res)
    (fh : Option Bytes) (path : PyStr) : Except ResolveErr (Option Bytes) :=
  if path = [] then .error (.valueError "path")
  else
    match fh with
    | none =>
      if path.head? ≠ some '/' then
        .error (.valueError "cannot resolve relative path without filehandle")
      else
        match get_rootfh_using_mnt mnt with
        | none => .error (.runtimeError "cannot get root filehandle")
        | some root =>
          if path = ['/'] then .ok (some root)
          else resolve_path_loop cli_lookup (py_split '/' (path.drop 1)) (some root)
    | some f =>
      if path.head? = some '/' then
        .error (.valueError "attempt to resolve absolute path starting with a filehandle")
      else resolve_path_loop cli_lookup (py_split '/' path) (some f)

/-- Mirror of `nfs3_util.resolve_path(mnt, cli, path)`:
`resolve_path_from` with no starting handle. -/
def resolve_path (mnt : MOUNT3_MNTres) (cli_lookup : Bytes → PyStr → LOOKUP3res)
    (path : PyStr) : Except ResolveErr (Option Bytes) :=
  resolve_path_from mnt cli_lookup none path

/-- Statement of the specification's fold, for comparison with
`resolve_path`: `LOOKUP(LOOKUP(root, "a"), "b")`, i.e. a left fold of the
LOOKUP oracle's OK-arm handle over the path components starting from the
root handle. -/
def spec_lookup_fold (cli_lookup : Bytes → PyStr → LOOKUP3res)
    (root : Bytes) (comps : List PyStr) : Bytes :=
  comps.foldl (fun h c => (cli_lookup h c).aobject) root

/-!
Theorems.
-/

/-- C1: contrary to the claim (and to the `annotated_enum` docstring),
comparing two enum instances of different subclasses that keep the
default mismatch configuration (`_MISMATCH_CMP_ALLOW = False`,
`_MISMATCH_CMP_EXCEPT = False`, as `ftype3`, `stable_how`, `createmode3`,
`time_how` and `msg_type` all do) does not raise `TypeError`: after
logging a warning the comparison falls through to
`int(self) == int(other)`, so `ftype3(1) == stable_how(1)` evaluates to
`True` and `createmode3(0) == time_how(1)` to `False`. -/
theorem claim_C1_default_mismatch_eq_compares_values :
    annotated_enum_eq ⟨ftype3_class, 1⟩ ⟨stable_how_class, 1⟩ = .ret true
  ∧ annotated_enum_eq ⟨createmode3_class, 0⟩ ⟨time_how_class, 1⟩ = .ret false
  ∧ annotated_enum_eq ⟨msg_type_class, 0⟩ ⟨ftype3_class, 0⟩ ≠ .typeErrorRaised := by
  refine ⟨by decide, by decide, by decide⟩

/-- C2: contrary to the claim, a socket receive or send timeout does not
leave `need_reconnect` unchanged: `_recvwrapper` (and `_sendrecord`) set
`need_reconnect = True` before raising `RPCTimeout`, so after a
timed-out attempt that started with `need_reconnect = False` the flag is
`True` and the retry reconnects.  Only `make_call`'s own per-attempt
handler spares the flag on `RPCTimeout` (its comment: "Do not reconnect
on timeout so we can get xid matching"), which the wrappers defeat. -/
theorem claim_C2_socket_timeout_sets_need_reconnect :
    attempt_flag_after_recv false .sockTimeout = true
  ∧ (recvwrapper false .sockTimeout).1 = true
  ∧ (sendrecord_flag false .sockTimeout).1 = true
  ∧ make_call_handler_flag false .rpcTimeout = false := by
  refine ⟨by decide, by decide, by decide, by decide⟩

/-- C4: contrary to the claim, the MSG_DENIED/AUTH_ERROR branch of
`_make_call_internal` returns a failure whose status is
`Auth_stat(dstat) = Auth_stat(1)`, not the auth-stat it just read from
the stream: on a reply `(xid=7, mtype=REPLY, MSG_DENIED, AUTH_ERROR,
auth-stat=3)` the returned status carries the value `1`
(`AUTH_BADCRED`), although the auth-stat word read was `3`
(`AUTH_BADVERF`). -/
theorem claim_C4_auth_error_status_carries_dstat :
    (make_call_internal_reply (fun s => .ok ((0 : Nat), s)) 7
        (u32b 7 ++ i32b 1 ++ i32b 1 ++ i32b 1 ++ u32b 3) false).1
      = .ok (.resfail 7 (.authSt 1))
  ∧ RpcFailStatus.authSt 1 ≠ .authSt 3 := by
  refine ⟨by decide, by decide⟩

/-- C5: contrary to the claim, `READ3res.read` consumes exactly the
declared byte count of the opaque data field with no alignment step: on
a well-formed OK reply carrying one data byte followed by its three zero
pad bytes, the decoder returns with the three pad bytes still
unconsumed, while the module's own `read_then_align` primitive (used by
every other variable-length decoder) would have consumed them. -/
theorem claim_C5_read3res_data_pad_not_consumed :
    READ3res.read (i32b 0 ++ i32b 0 ++ u32b 1 ++ i32b 1 ++ u32b 1 ++ [171, 0, 0, 0])
      = .ok (⟨0, some ⟨false, none⟩, some 1, some true, some [171]⟩, [0, 0, 0])
  ∧ read_then_align [171, 0, 0, 0] 1 4 = .ok ([171], []) := by
  refine ⟨by decide, by decide⟩

/-- C6: contrary to the claim, when an iteration of
`readdir_entire_dir` receives a READDIR response with non-OK status the
method does not return `(False, [])`: its error branch reads the local
`logger` before any assignment (the method has no `logger` parameter),
raising `UnboundLocalError`.  The readdirplus twin, which does have a
`logger` parameter, returns `(False, [])` as claimed. -/
theorem claim_C6_readdir_error_branch_raises :
    readdir_entire_dir (fun _ _ _ => ⟨13, cookieverf3_zero, [], true⟩) 5
      = some (.exc (.unboundLocalError "logger"))
  ∧ readdirplus_entire_dir (fun _ _ _ => ⟨13, cookieverf3_zero, [], true⟩) 5
      = some (.ok (false, [])) := by
  refine ⟨by rfl, by rfl⟩

/-- Helper: the xid trace of the retry loop always extends the
accumulator with the current xid first. -/
theorem make_call_go_xids_shape (attempts : Nat → RStatus) (in_xid : Option Nat) :
    ∀ (fuel idx cur_xid ctr : Nat) (acc : List Nat),
      ∃ tail, (make_call_go attempts in_xid idx fuel cur_xid ctr acc).xids
        = acc ++ cur_xid :: tail := by
  intro fuel
  induction fuel with
  | zero =>
    intro idx cur_xid ctr acc
    refine ⟨[], ?_⟩
    rw [make_call_go.eq_def]
    rcases h : attempts idx with v | s
    · by_cases hv : v = 10008
      · rcases hx : in_xid with _ | x <;> simp [h, hv, hx, map_none_status]
      · simp [h, hv]
    · simp [h, map_none_status]
    · simp [h, map_none_status]
  | succ fuel ih =>
    intro idx cur_xid ctr acc
    rw [make_call_go.eq_def]
    rcases h : attempts idx with v | s
    · by_cases hv : v = 10008
      · rcases hx : in_xid with _ | x
        · obtain ⟨t, ht⟩ := ih (idx + 1) (ctr + 1) (ctr + 1) (acc ++ [cur_xid])
          refine ⟨(ctr + 1) :: t, ?_⟩
          rw [hx] at ht
          simp only [h, hv, hx, if_true]
          simpa using ht
        · refine ⟨[], ?_⟩
          simp [h, hv, hx]
      · refine ⟨[], ?_⟩
        simp [h, hv]
    · obtain ⟨t, ht⟩ := ih (idx + 1) cur_xid ctr (acc ++ [cur_xid])
      refine ⟨cur_xid :: t, ?_⟩
      simp only [h]
      simpa using ht
    · obtain ⟨t, ht⟩ := ih (idx + 1) cur_xid ctr (acc ++ [cur_xid])
      refine ⟨cur_xid :: t, ?_⟩
      simp only [h]
      simpa using ht

/-- Helper: `map_none_status` never produces a `None` status. -/
theorem map_none_status_ne_none : ∀ s : RStatus, map_none_status s ≠ .noneStatus := by
  intro s
  cases s <;> simp [map_none_status]

/-- Helper: the retry loop executes `k + 1 ≤ fuel + 1` attempts and
returns the (None-mapped) status of the last of them. -/
theorem make_call_go_status_shape (attempts : Nat → RStatus) (in_xid : Option Nat) :
    ∀ (fuel idx cur_xid ctr : Nat) (acc : List Nat),
      ∃ k, k ≤ fuel
      ∧ (make_call_go attempts in_xid idx fuel cur_xid ctr acc).xids.length
          = acc.length + (k + 1)
      ∧ (make_call_go attempts in_xid idx fuel cur_xid ctr acc).status
          = map_none_status (attempts (idx + k)) := by
  intro fuel
  induction fuel with
  | zero =>
    intro idx cur_xid ctr acc
    refine ⟨0, le_refl 0, ?_⟩
    rw [make_call_go.eq_def]
    rcases h : attempts idx with v | s
    · by_cases hv : v = 10008
      · rcases hx : in_xid with _ | x <;> simp [h, hv, hx, map_none_status]
      · simp [h, hv, map_none_status]
    · simp [h, map_none_status]
    · simp [h, map_none_status]
  | succ fuel ih =>
    intro idx cur_xid ctr acc
    rw [make_call_go.eq_def]
    rcases h : attempts idx with v | s
    · by_cases hv : v = 10008
      · rcases hx : in_xid with _ | x
        · obtain ⟨k, hk, hlen, hst⟩ := ih (idx + 1) (ctr + 1) (ctr + 1) (acc ++ [cur_xid])
          rw [hx] at hlen hst
          have hlen2 : (make_call_go attempts none (idx + 1) fuel (ctr + 1) (ctr + 1)
              (acc ++ [cur_xid])).xids.length = acc.length + (k + 1 + 1) := by
            rw [hlen]
            simp only [List.length_append, List.length_cons, List.length_nil]
            omega
          have hst2 : (make_call_go attempts none (idx + 1) fuel (ctr + 1) (ctr + 1)
              (acc ++ [cur_xid])).status = map_none_status (attempts (idx + (k + 1))) := by
            rw [hst]
            have harith : idx + 1 + k = idx + (k + 1) := by omega
            rw [harith]
          refine ⟨k + 1, by omega, ?_, ?_⟩
          · simp [h, hv, hx, hlen2]
          · simp [h, hv, hx, hst2]
        · refine ⟨0, by omega, ?_⟩
          simp [h, hv, hx, map_none_status]
      · refine ⟨0, by omega, ?_⟩
        simp [h, hv, map_none_status]
    · obtain ⟨k, hk, hlen, hst⟩ := ih (idx + 1) cur_xid ctr (acc ++ [cur_xid])
      have hlen2 : (make_call_go attempts in_xid (idx + 1) fuel cur_xid ctr
          (acc ++ [cur_xid])).xids.length = acc.length + (k + 1 + 1) := by
        rw [hlen]
        simp only [List.length_append, List.length_cons, List.length_nil]
        omega
      have hst2 : (make_call_go attempts in_xid (idx + 1) fuel cur_xid ctr
          (acc ++ [cur_xid])).status = map_none_status (attempts (idx + (k + 1))) := by
        rw [hst]
        have harith : idx + 1 + k = idx + (k + 1) := by omega
        rw [harith]
      refine ⟨k + 1, by omega, ?_, ?_⟩
      · simp [h, hlen2]
      · simp [h, hst2]
    · obtain ⟨k, hk, hlen, hst⟩ := ih (idx + 1) cur_xid ctr (acc ++ [cur_xid])
      have hlen2 : (make_call_go attempts in_xid (idx + 1) fuel cur_xid ctr
          (acc ++ [cur_xid])).xids.length = acc.length + (k + 1 + 1) := by
        rw [hlen]
        simp only [List.length_append, List.length_cons, List.length_nil]
        omega
      have hst2 : (make_call_go attempts in_xid (idx + 1) fuel cur_xid ctr
          (acc ++ [cur_xid])).status = map_none_status (attempts (idx + (k + 1))) := by
        rw [hst]
        have harith : idx + 1 + k = idx + (k + 1) := by omega
        rw [harith]
      refine ⟨k + 1, by omega, ?_, ?_⟩
      · simp [h, hlen2]
      · simp [h, hst2]

/-- C3: the JUKEBOX retry discipline of `nfs3_util.NFS3_Client.make_call`.
With at least two tries permitted and the first attempt's status an
`nfsstat3`: any value other than `NFS3ERR_JUKEBOX(10008)` (including
`NFS3_OK`) is returned immediately after a single attempt; JUKEBOX with a
caller-supplied xid is returned without retry and without advancing the
XID counter; JUKEBOX with no caller xid is retried with a freshly
allocated xid (the first attempt used `ctr0 + 1`, the retry `ctr0 + 2`);
and a non-`nfsstat3` status is retried with the same xid. -/
theorem claim_C3_jukebox_retry_discipline (attempts : Nat → RStatus)
    (ctr0 callTries : Nat) (h2 : 2 ≤ callTries) :
    (∀ v : Int, attempts 0 = .nfsstat v → v ≠ 10008 →
      NFS3_Client.make_call attempts none callTries ctr0
        = .ok ⟨.nfsstat v, [ctr0 + 1], ctr0 + 1⟩)
  ∧ (∀ x : Nat, attempts 0 = .nfsstat 10008 →
      NFS3_Client.make_call attempts (some x) callTries ctr0
        = .ok ⟨.nfsstat 10008, [x], ctr0⟩)
  ∧ (attempts 0 = .nfsstat 10008 →
      ∃ out, NFS3_Client.make_call attempts none callTries ctr0 = .ok out
        ∧ out.xids.take 2 = [ctr0 + 1, ctr0 + 2])
  ∧ (∀ st : RStatus, attempts 0 = st → (∀ v : Int, st ≠ .nfsstat v) →
      ∃ out, NFS3_Client.make_call attempts none callTries ctr0 = .ok out
        ∧ out.xids.take 2 = [ctr0 + 1, ctr0 + 1]) := by
  have hct : ¬ callTries < 1 := by omega
  obtain ⟨k, rfl⟩ : ∃ k, callTries = k + 2 := ⟨callTries - 2, by omega⟩
  refine ⟨?_, ?_, ?_, ?_⟩
  · intro v h hv
    simp only [NFS3_Client.make_call, hct, if_false]
    rw [make_call_go.eq_def]
    simp [h, hv]
  · intro x h
    simp only [NFS3_Client.make_call, hct, if_false]
    rw [make_call_go.eq_def]
    simp [h]
  · intro h
    refine ⟨make_call_go attempts none 1 k (ctr0 + 1 + 1) (ctr0 + 1 + 1) [ctr0 + 1], ?_, ?_⟩
    · simp only [NFS3_Client.make_call, hct, if_false]
      rw [make_call_go.eq_def]
      simp [h]
    · obtain ⟨t, ht⟩ := make_call_go_xids_shape attempts none k 1 (ctr0 + 1 + 1)
        (ctr0 + 1 + 1) [ctr0 + 1]
      rw [ht]
      simp
  · intro st h hne
    rcases st with v | s
    · exact absurd rfl (hne v)
    · refine ⟨make_call_go attempts none 1 k (ctr0 + 1) (ctr0 + 1) [ctr0 + 1], ?_, ?_⟩
      · simp only [NFS3_Client.make_call, hct, if_false]
        rw [make_call_go.eq_def]
        simp [h]
      · obtain ⟨t, ht⟩ := make_call_go_xids_shape attempts none k 1 (ctr0 + 1)
          (ctr0 + 1) [ctr0 + 1]
        rw [ht]
        simp
    · refine ⟨make_call_go attempts none 1 k (ctr0 + 1) (ctr0 + 1) [ctr0 + 1], ?_, ?_⟩
      · simp only [NFS3_Client.make_call, hct, if_false]
        rw [make_call_go.eq_def]
        simp [h]
      · obtain ⟨t, ht⟩ := make_call_go_xids_shape attempts none k 1 (ctr0 + 1)
          (ctr0 + 1) [ctr0 + 1]
        rw [ht]
        simp

/-- Witness for C3 at concrete inputs exercising all four branches. -/
theorem claim_C3_witness :
    NFS3_Client.make_call (fun _ => .nfsstat 0) none 2 0 = .ok ⟨.nfsstat 0, [1], 1⟩
  ∧ NFS3_Client.make_call (fun _ => .nfsstat 10008) (some 9) 2 0
      = .ok ⟨.nfsstat 10008, [9], 0⟩
  ∧ (∃ out, NFS3_Client.make_call (fun _ => .nfsstat 10008) none 2 0 = .ok out
      ∧ out.xids.take 2 = [1, 2])
  ∧ (∃ out, NFS3_Client.make_call (fun _ => .strStatus "RPCTimeout") none 2 0 = .ok out
      ∧ out.xids.take 2 = [1, 1]) := by
  refine ⟨?_, ?_, ?_, ?_⟩
  · exact (claim_C3_jukebox_retry_discipline (fun _ => .nfsstat 0) 0 2
      (by norm_num)).1 0 rfl (by norm_num)
  · exact (claim_C3_jukebox_retry_discipline (fun _ => .nfsstat 10008) 0 2
      (by norm_num)).2.1 9 rfl
  · exact (claim_C3_jukebox_retry_discipline (fun _ => .nfsstat 10008) 0 2
      (by norm_num)).2.2.1 rfl
  · exact (claim_C3_jukebox_retry_discipline (fun _ => .strStatus "RPCTimeout") 0 2
      (by norm_num)).2.2.2 (.strStatus "RPCTimeout") rfl (fun v => by simp)

/-- C9: `nfs3_util.NFS3_Client.make_call` never returns a result with a
`None` status: whatever the attempt outcomes, the returned status is not
`None`, and when the last executed attempt (there are `out.xids.length`
of them) produced status `None`, the returned status is the string
`"Unexpected_NoneStatus"`. -/
theorem claim_C9_status_never_none (attempts : Nat → RStatus) (in_xid : Option Nat)
    (callTries ctr0 : Nat) (out : MCOut)
    (hok : NFS3_Client.make_call attempts in_xid callTries ctr0 = .ok out) :
    out.status ≠ .noneStatus
  ∧ (attempts (out.xids.length - 1) = .noneStatus →
      out.status = .strStatus "Unexpected_NoneStatus") := by
  unfold NFS3_Client.make_call at hok
  by_cases hct : callTries < 1
  · simp [hct] at hok
  · simp only [hct, if_false] at hok
    rcases hx : in_xid with _ | x
    · rw [hx] at hok
      simp only [Except.ok.injEq] at hok
      obtain ⟨k, _, hlen, hst⟩ := make_call_go_status_shape attempts none (callTries - 1)
        0 (ctr0 + 1) (ctr0 + 1) []
      rw [hok] at hlen hst
      simp only [List.length_nil, Nat.zero_add] at hlen hst
      constructor
      · rw [hst]
        exact map_none_status_ne_none _
      · intro hnone
        rw [hlen] at hnone
        simp only [Nat.add_sub_cancel] at hnone
        rw [hst, hnone]
        rfl
    · rw [hx] at hok
      simp only [Except.ok.injEq] at hok
      obtain ⟨k, _, hlen, hst⟩ := make_call_go_status_shape attempts (some x) (callTries - 1)
        0 x ctr0 []
      rw [hok] at hlen hst
      simp only [List.length_nil, Nat.zero_add] at hlen hst
      constructor
      · rw [hst]
        exact map_none_status_ne_none _
      · intro hnone
        rw [hlen] at hnone
        simp only [Nat.add_sub_cancel] at hnone
        rw [hst, hnone]
        rfl

/-- Witness for C9: two attempts that both return a `None` status. -/
theorem claim_C9_witness :
    (⟨.strStatus "Unexpected_NoneStatus", [1, 1], 1⟩ : MCOut).status ≠ .noneStatus
  ∧ (⟨.strStatus "Unexpected_NoneStatus", [1, 1], 1⟩ : MCOut).status
      = .strStatus "Unexpected_NoneStatus" := by
  have h := claim_C9_status_never_none (fun _ => .noneStatus) none 2 0
    ⟨.strStatus "Unexpected_NoneStatus", [1, 1], 1⟩ rfl
  exact ⟨h.1, h.2 rfl⟩

/-- C7: contrary to the claim, an XID can be reused within one process.
`get_new_xid` and `xid_used` are classmethods always invoked through
`self`, so their writes shadow `_lastxid` into the instance's
most-derived client class: after `MOUNT3_Client` allocates XID 1, an
`NFS3_Client` allocation also returns 1 (both reads fall back to
`_RawTCPClient._lastxid = 0`), and an `xid_used(100)` observed through
`MOUNT3_Client` does not stop `NFS3_Client` from next allocating 1. -/
theorem claim_C7_xid_reused_across_client_classes :
    (xid_run [xid_op.get_new "MOUNT3_Client" rpc_client_mro_tail,
              xid_op.get_new "NFS3_Client" rpc_client_mro_tail] lastxid_store0).2
      = [1, 1]
  ∧ (xid_run [xid_op.used "MOUNT3_Client" rpc_client_mro_tail 100,
              xid_op.get_new "NFS3_Client" rpc_client_mro_tail] lastxid_store0).2
      = [1]
  ∧ ¬ ((1 : Int) < 1)
  ∧ ¬ ((100 : Int) < 1) := by
  refine ⟨by decide, by decide, by decide, by decide⟩

/-- Helper: when every LOOKUP along the components succeeds with a
non-empty handle, the resolver loop computes the specification's fold. -/
theorem resolve_path_loop_fold (cli_lookup : Bytes → PyStr → LOOKUP3res) :
    ∀ (comps : List PyStr) (h : Bytes),
      (∀ (hh : Bytes) (c : PyStr), c ∈ comps →
        (cli_lookup hh c).status = 0 ∧ (cli_lookup hh c).aobject ≠ []) →
      (∀ c ∈ comps, c ≠ ([] : PyStr)) →
      resolve_path_loop cli_lookup comps (some h)
        = .ok (some (spec_lookup_fold cli_lookup h comps)) := by
  intro comps
  induction comps with
  | nil => intro h _ _; simp [resolve_path_loop, spec_lookup_fold]
  | cons comp comps ih =>
    intro h hok hne
    have hcne : comp ≠ ([] : PyStr) := hne comp (by simp)
    obtain ⟨hst, hobj⟩ := hok h comp (by simp)
    rw [resolve_path_loop]
    simp only [hcne, if_false]
    have hgd : (some h).getD ([] : Bytes) = h := rfl
    rw [hgd]
    simp only [hst, if_pos, if_false]
    have hgh : (cli_lookup h comp).get_handle = some (cli_lookup h comp).aobject := by
      simp [LOOKUP3res.get_handle, hobj]
    rw [hgh]
    have hrec := ih ((cli_lookup h comp).aobject)
      (fun hh c hc => hok hh c (by simp [hc]))
      (fun c hc => hne c (by simp [hc]))
    rw [hrec]
    simp [spec_lookup_fold]

/-- Helper: a component list containing an empty component makes the
resolver loop raise (either `ValueError` at the empty component or
`RuntimeError` at an earlier failing LOOKUP). -/
theorem resolve_path_loop_err (cli_lookup : Bytes → PyStr → LOOKUP3res) :
    ∀ (comps : List PyStr) (fh : Option Bytes), ([] : PyStr) ∈ comps →
      ∃ e, resolve_path_loop cli_lookup comps fh = .error e := by
  intro comps
  induction comps with
  | nil => intro fh h; simp at h
  | cons comp comps ih =>
    intro fh h
    by_cases hc : comp = ([] : PyStr)
    · exact ⟨.valueError "invalid path", by rw [resolve_path_loop]; simp [hc]⟩
    · have hmem : ([] : PyStr) ∈ comps := by
        rcases List.mem_cons.mp h with h1 | h1
        · exact absurd h1.symm hc
        · exact h1
      by_cases hst : (cli_lookup (fh.getD []) comp).status = 0
      · obtain ⟨e, he⟩ := ih ((cli_lookup (fh.getD []) comp).get_handle) hmem
        refine ⟨e, ?_⟩
        rw [resolve_path_loop]
        simp [hc, hst, he]
      · refine ⟨.runtimeError "cannot resolve path", ?_⟩
        rw [resolve_path_loop]
        simp [hc, hst]

/-- C8: `resolve_path` on `"/"` returns exactly the root handle of the
MOUNT `"/"` reply; on an absolute path whose split components are all
non-empty, and when every LOOKUP along the way returns `NFS3_OK` with a
non-empty handle, it returns the left fold of LOOKUP over the components
starting from that root (`resolve_path("/a/b") = LOOKUP(LOOKUP(root,
"a"), "b")`); and when the split contains an empty component the call
raises. -/
theorem claim_C8_resolve_path_fold (mnt : MOUNT3_MNTres)
    (cli_lookup : Bytes → PyStr → LOOKUP3res) (hmnt : mnt.status = 0) :
    resolve_path mnt cli_lookup ['/'] = .ok (some mnt.fhandle)
  ∧ (∀ (path : PyStr) (comps : List PyStr),
      path.head? = some '/' → path ≠ ['/'] → py_split '/' (path.drop 1) = comps →
      (∀ (h : Bytes) (c : PyStr), c ∈ comps →
        (cli_lookup h c).status = 0 ∧ (cli_lookup h c).aobject ≠ []) →
      (∀ c ∈ comps, c ≠ ([] : PyStr)) →
      resolve_path mnt cli_lookup path
        = .ok (some (spec_lookup_fold cli_lookup mnt.fhandle comps)))
  ∧ (∀ (path : PyStr) (comps : List PyStr),
      path.head? = some '/' → path ≠ ['/'] → py_split '/' (path.drop 1) = comps →
      ([] : PyStr) ∈ comps →
      ∃ e, resolve_path mnt cli_lookup path = .error e) := by
  have hroot : get_rootfh_using_mnt mnt = some mnt.fhandle := by
    simp [get_rootfh_using_mnt, hmnt]
  refine ⟨?_, ?_, ?_⟩
  · simp [resolve_path, resolve_path_from, hroot]
  · intro path comps hhead hslash hsplit hok hne
    have hpe : path ≠ ([] : PyStr) := by
      intro h
      rw [h] at hhead
      simp at hhead
    unfold resolve_path resolve_path_from
    simp [hpe, hhead, hroot, hslash]
    rw [List.drop_one] at hsplit
    rw [hsplit]
    exact resolve_path_loop_fold cli_lookup comps mnt.fhandle hok hne
  · intro path comps hhead hslash hsplit hmem
    have hpe : path ≠ ([] : PyStr) := by
      intro h
      rw [h] at hhead
      simp at hhead
    obtain ⟨e, he⟩ := resolve_path_loop_err cli_lookup comps (some mnt.fhandle) hmem
    refine ⟨e, ?_⟩
    unfold resolve_path resolve_path_from
    simp [hpe, hhead, hroot, hslash]
    rw [List.drop_one] at hsplit
    rw [hsplit]
    exact he

/-- Witness for C8: a server whose MOUNT "/" returns handle `[1]` and
whose LOOKUP appends the name length to the parent handle; paths "/",
"/a/b" and "/a//" exercise the three parts. -/
theorem claim_C8_witness :
    resolve_path ⟨0, [1]⟩ (fun h c => ⟨0, h ++ [c.length]⟩) ['/'] = .ok (some [1])
  ∧ resolve_path ⟨0, [1]⟩ (fun h c => ⟨0, h ++ [c.length]⟩) ['/', 'a', '/', 'b']
      = .ok (some (spec_lookup_fold (fun h c => ⟨0, h ++ [c.length]⟩) [1] [['a'], ['b']]))
  ∧ (∃ e, resolve_path ⟨0, [1]⟩ (fun h c => ⟨0, h ++ [c.length]⟩) ['/', 'a', '/', '/']
      = .error e) := by
  have h := claim_C8_resolve_path_fold ⟨0, [1]⟩ (fun h c => ⟨0, h ++ [c.length]⟩) rfl
  refine ⟨h.1, ?_, ?_⟩
  · exact h.2.1 ['/', 'a', '/', 'b'] [['a'], ['b']] rfl (by decide) (by decide)
      (fun hh c _ => ⟨rfl, by simp⟩) (by decide)
  · exact h.2.2 ['/', 'a', '/', '/'] [['a'], [], []] rfl (by decide) (by decide) (by decide)

/-- Helper: `u32b` is a section of `beNat` for 32-bit values. -/
theorem beNat_u32b (m : Nat) (h : m < 4294967296) : beNat (u32b m) = m := by
  unfold beNat u32b
  simp only [List.foldl_cons, List.foldl_nil]
  omega

/-- Helper: `read_uint32` decodes a `u32b` prefix exactly. -/
theorem read_uint32_u32b (m : Nat) (h : m < 4294967296) (t : Bytes) :
    read_uint32 (u32b m ++ t) = .ok (m, t) := by
  simp only [read_uint32, read_exact, u32b, beNat, List.cons_append, List.nil_append,
    List.take_succ_cons, List.take_zero, List.drop_succ_cons, List.drop_zero,
    List.length_cons, List.length_nil, List.foldl_cons, List.foldl_nil]
  norm_num
  omega

/-- Helper: `read_list` decodes an `enc_list`-encoded sequence back to
its items, leaving the rest of the stream, provided the item decoder
inverts the item encoder and the fuel covers the items. -/
theorem read_list_enc {α : Type} (read_item : Bytes → Except PErr (α × Bytes))
    (enc_item : α → Bytes) :
    ∀ (items : List α) (rest : Bytes) (fuel : Nat),
      items.length + 1 ≤ fuel →
      (∀ a ∈ items, ∀ t : Bytes, read_item (enc_item a ++ t) = .ok (a, t)) →
      read_list read_item fuel (enc_list enc_item items ++ rest)
        = some (.ok (items, rest)) := by
  intro items
  induction items with
  | nil =>
    intro rest fuel hfuel _
    obtain ⟨f, rfl⟩ : ∃ f, fuel = f + 1 := ⟨fuel - 1, by omega⟩
    have henc : enc_list enc_item ([] : List α) ++ rest = u32b 0 ++ rest := by
      simp [enc_list]
    rw [henc, read_list, read_uint32_u32b 0 (by norm_num)]
    simp
  | cons a items ih =>
    intro rest fuel hfuel hitem
    obtain ⟨f, rfl⟩ : ∃ f, fuel = f + 1 := ⟨fuel - 1, by omega⟩
    have henc : enc_list enc_item (a :: items) ++ rest
        = u32b 1 ++ (enc_item a ++ (enc_list enc_item items ++ rest)) := by
      simp [enc_list]
    rw [henc, read_list, read_uint32_u32b 1 (by norm_num)]
    have hread := hitem a (by simp) (enc_list enc_item items ++ rest)
    have hrec := ih rest f (by simp at hfuel; omega)
      (fun b hb t => hitem b (by simp [hb]) t)
    simp [hread, hrec]

/-- Helper: a marker word other than 0 or 1 at the head of the list makes
`read_list` raise `ProtocolError`, with the offending marker named. -/
theorem read_list_bad_marker {α : Type} (read_item : Bytes → Except PErr (α × Bytes))
    (fuel : Nat) (m : Nat) (s : Bytes) (h0 : m ≠ 0) (h1 : m ≠ 1)
    (hm : m < 4294967296) (hf : 1 ≤ fuel) :
    read_list read_item fuel (u32b m ++ s)
      = some (.error (.protocolError ("unexpected nextval=" ++ toString m))) := by
  obtain ⟨f, rfl⟩ : ∃ f, fuel = f + 1 := ⟨fuel - 1, by omega⟩
  rw [read_list, read_uint32_u32b m hm]
  simp [h0, h1]

/-- C10: `read_list` decodes a sequence of `(marker=1, item)` pairs
terminated by a single marker `0` into exactly the encoded items (given a
correct item decoder and sufficient fuel), and on a marker word that is
neither 0 nor 1 it raises `ProtocolError` naming the marker — never
skipping or misreading it. -/
theorem claim_C10_read_list_discipline {α : Type}
    (read_item : Bytes → Except PErr (α × Bytes)) (enc_item : α → Bytes)
    (items : List α) (rest : Bytes) (fuel : Nat)
    (hfuel : items.length + 1 ≤ fuel)
    (hitem : ∀ a ∈ items, ∀ t : Bytes, read_item (enc_item a ++ t) = .ok (a, t)) :
    read_list read_item fuel (enc_list enc_item items ++ rest)
      = some (.ok (items, rest))
  ∧ ∀ (m : Nat) (s : Bytes), m ≠ 0 → m ≠ 1 → m < 4294967296 →
      read_list read_item fuel (u32b m ++ s)
        = some (.error (.protocolError ("unexpected nextval=" ++ toString m))) := by
  refine ⟨read_list_enc read_item enc_item items rest fuel hfuel hitem, ?_⟩
  intro m s h0 h1 hm
  exact read_list_bad_marker read_item fuel m s h0 h1 hm (by omega)

/-- Witness for C10: two uint32 items under the list encoding, and the
bad marker 2. -/
theorem claim_C10_witness :
    read_list read_uint32 3 (enc_list u32b [42, 7] ++ [9]) = some (.ok ([42, 7], [9]))
  ∧ read_list read_uint32 3 (u32b 2 ++ [0])
      = some (.error (.protocolError ("unexpected nextval=" ++ toString (2 : Nat)))) := by
  have h := claim_C10_read_list_discipline read_uint32 u32b [42, 7] [9] 3 (by norm_num)
    (by
      intro a ha t
      rcases List.mem_cons.mp ha with h1 | h1
      · subst h1
        exact read_uint32_u32b 42 (by norm_num) t
      · rcases List.mem_cons.mp h1 with h2 | h2
        · subst h2
          exact read_uint32_u32b 7 (by norm_num) t
        · simp at h2)
  exact ⟨h.1, h.2 2 [0] (by norm_num) (by norm_num) (by norm_num)⟩
